import Mathlib

/-
Shallow embedding of the Eswatini-Events ticketing backend.

Sources embedded here:
  * models/Ticket.js  (TicketSchema: fields, immutable qrData, transferTicket,
    processRefund instance methods)
  * controllers/refundController.js (exports.processRefund)
  * controllers/paymentWebhooks.js (exports.handlePaymentWebhook)
  * routes/ticketRoutes.js (purchase, transfer, validate handlers)
  * models/Event.js (EventSchema.ticketTypes)

ObjectIds, timestamps and monetary amounts are modelled as Nat; Mongo
documents become Lean structures; the database becomes an explicit state
record threaded through every handler; a handler returns
(Except AppError response) together with the post-state (on a thrown
error the surrounding transaction is aborted, so the post-state is the
pre-state unless noted otherwise).
-/

namespace EswatiniEvents

/-- An element of TicketSchema.transferHistory: { from, to, date }.
JS field name from is a Lean keyword, rendered tfrom/tto. -/
structure TransferEntry where
  tfrom : Nat
  tto : Nat
  date : Nat
deriving Repr, DecidableEq

/-- An element of TicketSchema.validationHistory: { timestamp, validatedBy, location }. -/
structure ValidationEntry where
  timestamp : Nat
  validatedBy : Nat
  location : String
deriving Repr, DecidableEq

/-- An element of TicketSchema.refundHistory:
{ idempotencyKey, processedAt, processedBy, amount, reason, status }. -/
structure RefundEntry where
  idempotencyKey : String
  processedAt : Nat
  processedBy : Nat
  amount : Nat
  reason : String
  status : String
deriving Repr, DecidableEq

/-- TicketSchema (models/Ticket.js). `qrData` is declared `immutable: true`
in the schema; see `persistTicket`. `paymentStatus`, `transactionId` and
`paymentMethod` are the fields written by the payment-webhook controller's
updates. `status` is the stored enum ACTIVE/REFUNDED/USED/TRANSFERRED with
default ACTIVE. -/
structure Ticket where
  id : Nat
  event : Nat
  owner : Nat
  qrData : String
  qrCode : String
  isUsed : Bool := false
  price : Nat
  tier : String := "General"
  transferHistory : List TransferEntry := []
  validationHistory : List ValidationEntry := []
  status : String := "ACTIVE"
  refundHistory : List RefundEntry := []
  paymentStatus : Option String := none
  transactionId : Option String := none
  paymentMethod : Option String := none
  updatedAt : Nat := 0
deriving Repr, DecidableEq

/-- The alternative Ticket model variant declares status as a virtual:
TicketSchema.virtual('status').get(function () { return this.isUsed ? 'USED' : 'ACTIVE'; }). -/
def virtualStatus (t : Ticket) : String :=
  if t.isUsed then "USED" else "ACTIVE"

/-- An element of EventSchema.ticketTypes: { name, price, capacity }, plus the
`sold` counter that the webhook controller increments with
$inc 'ticketTypes.$[elem].sold'. -/
structure TicketType where
  name : String
  price : Nat
  capacity : Nat
  sold : Nat := 0
deriving Repr, DecidableEq

/-- EventSchema (models/Event.js); location is collapsed to a display string,
which is all the ticket routes read from it. -/
structure Event where
  id : Nat
  name : String
  date : Nat
  location : String
  isActive : Bool := true
  ticketTypes : List TicketType := []
  organizer : Nat
deriving Repr, DecidableEq

/-- The slice of UserSchema the ticket routes read (lookup by email,
populate of owner email). -/
structure User where
  id : Nat
  email : String
deriving Repr, DecidableEq

/-- Modelled from the spec: the Payment model (a payment record with the
transaction id, amount, currency, method, covered tickets and customer
contact) created by the webhook success path. The model file
(models/Payment.js) is not among the provided sources; only its caller in
controllers/paymentWebhooks.js is, so its shape is taken from the spec's
step "create a payment record" and the constructor call's fields. -/
structure Payment where
  transactionId : String
  amount : Nat
  currency : String
  paymentMethod : String
  tickets : List Nat
  customerEmail : Option String := none
  customerPhone : Option String := none
  status : String := "completed"
deriving Repr, DecidableEq

/-- AppError(message, statusCode, details): details are kept only as the
machine-readable code field used by the webhook controller. Generic
Error(...) throws from model methods reach the error handler without a
statusCode and are sent as 500. -/
structure AppError where
  message : String
  statusCode : Nat
  code : Option String := none
deriving Repr, DecidableEq

/-- The persistence state: the Mongo collections the embedded handlers touch. -/
structure DB where
  tickets : List Ticket
  events : List Event := []
  users : List User := []
  payments : List Payment := []
deriving Repr, DecidableEq

/-- Replace the (unique-id) ticket in the collection, as ticket.save() or
Ticket.updateOne({_id}) does. -/
def updateTicket (db : DB) (t' : Ticket) : DB :=
  { db with tickets := db.tickets.map fun t => if t.id == t'.id then t' else t }

/-- TicketSchema.methods.transferTicket(newOwnerId, currentUserId):
ownership check, used check, push transfer-history entry, reassign owner,
set status TRANSFERRED. A generic Error is thrown on failure. -/
def transferTicket (t : Ticket) (newOwnerId currentUserId : Nat) (now : Nat) :
    Except String Ticket :=
  if t.owner ≠ currentUserId then .error "You do not own this ticket"
  else if t.isUsed then .error "Cannot transfer used ticket"
  else .ok { t with
    transferHistory := t.transferHistory ++ [⟨t.owner, newOwnerId, now⟩],
    owner := newOwnerId,
    status := "TRANSFERRED" }

/-- TicketSchema.methods.processRefund(refundReason, processedBy, idempotencyKey):
rejects used tickets and already-REFUNDED tickets with generic Errors, then
sets status REFUNDED and pushes a refund-history entry with
amount = this.price and status COMPLETED. -/
def Ticket.processRefund (t : Ticket) (refundReason : String) (processedBy : Nat)
    (idempotencyKey : String) (now : Nat) : Except String Ticket :=
  if t.isUsed then .error "Cannot refund used ticket"
  else if t.status = "REFUNDED" then .error "Ticket already refunded"
  else .ok { t with
    status := "REFUNDED",
    refundHistory := t.refundHistory ++
      [⟨idempotencyKey, now, processedBy, t.price, refundReason, "COMPLETED"⟩] }

/-- The two response payload shapes of refundController.processRefund:
the deduplicated replay ({status:'deduplicated', refundStatus, originalRequestAt})
and the first-time completion ({status:'completed', amount, currency,
refundId, processedAt}). The subdocument _id returned as refundId is
modelled as the index at which the entry was appended. -/
inductive RefundResponse where
  | deduplicated (refundStatus : String) (originalRequestAt : Nat)
  | completed (amount : Nat) (currency : String) (refundId : Nat) (processedAt : Nat)
deriving Repr, DecidableEq

/-- refundController.processRefund: (1) idempotency lookup
Ticket.findOne({_id, 'refundHistory.idempotencyKey'}) and early 200 replay,
(2) findById + ownership check, (3) ticket.processRefund model method,
(4) 200 completed payload from the newly pushed entry. Thrown errors
propagate with the ticket unsaved, so the state is unchanged on every
error path. -/
def processRefund (db : DB) (ticketId userId : Nat) (reason idempotencyKey : String)
    (now : Nat) : Except AppError RefundResponse × DB :=
  match db.tickets.find? (fun t =>
      t.id == ticketId && t.refundHistory.any fun r => r.idempotencyKey == idempotencyKey) with
  | some existingRefund =>
    match existingRefund.refundHistory.find? (fun r => r.idempotencyKey == idempotencyKey) with
    | some refund => (.ok (.deduplicated refund.status refund.processedAt), db)
    | none => (.error ⟨"TypeError", 500, none⟩, db)
  | none =>
    match db.tickets.find? (fun t => t.id == ticketId) with
    | none => (.error ⟨"Ticket not found", 404, none⟩, db)
    | some ticket =>
      if ticket.owner ≠ userId then
        (.error ⟨"You do not own this ticket", 403, none⟩, db)
      else
        match ticket.processRefund reason userId idempotencyKey now with
        | .error msg => (.error ⟨msg, 500, none⟩, db)
        | .ok t' =>
          (.ok (.completed ticket.price "SZL" ticket.refundHistory.length now),
           updateTicket db t')

/-- The parsed webhook payload (req.body after app-level express.json()):
{ transactionId, status, ticketIds, amount, currency, paymentMethod,
customer{email,phone} }. Absent JSON fields are none. -/
structure WebhookBody where
  transactionId : Option String := none
  status : Option String := none
  ticketIds : List Nat := []
  amount : Option Nat := none
  currency : Option String := none
  paymentMethod : Option String := none
  customerEmail : Option String := none
  customerPhone : Option String := none
deriving Repr, DecidableEq

/-- JS truthiness of an optional string header or field: undefined and
the empty string are falsy. -/
def truthyS : Option String → Bool
  | none => false
  | some s => s ≠ ""

/-- JS truthiness of an optional number: undefined and 0 are falsy. -/
def truthyN : Option Nat → Bool
  | none => false
  | some n => n ≠ 0

/-- The 200 acknowledgement body of the webhook controller:
{ acknowledged: true, transactionId, ticketCount }. -/
structure Ack where
  transactionId : String
  ticketCount : Nat
deriving Repr, DecidableEq

/-- The arrayFilters update of the success path:
Event.updateOne({_id}, { $inc: { 'ticketTypes.$[elem].sold': 1 } },
  { arrayFilters: [{ 'elem.name': { $in: tiers } }] })
increments by one every ticketTypes element whose name is in the tier
list, independently of how many tickets carry that tier. -/
def incSoldForTiers (ev : Event) (tiers : List String) : Event :=
  { ev with ticketTypes := ev.ticketTypes.map fun tt =>
      if tiers.contains tt.name then { tt with sold := tt.sold + 1 } else tt }

/-- The success-path per-ticket update:
Ticket.updateOne({_id}, { $set: { paymentStatus: 'confirmed', transactionId,
paymentMethod, updatedAt } }) for every loaded ticket. -/
def confirmTicket (ids : List Nat) (txn : String) (pm : Option String) (now : Nat)
    (t : Ticket) : Ticket :=
  if ids.contains t.id then
    { t with paymentStatus := some "confirmed", transactionId := some txn,
             paymentMethod := pm, updatedAt := now }
  else t

/-- The failed-path update: Ticket.updateMany({_id $in ids},
{ $set: { paymentStatus: 'failed', transactionId, updatedAt } }). -/
def failTicket (ids : List Nat) (txn : String) (now : Nat) (t : Ticket) : Ticket :=
  if ids.contains t.id then
    { t with paymentStatus := some "failed", transactionId := some txn, updatedAt := now }
  else t

/-- controllers/paymentWebhooks.handlePaymentWebhook.
`hmac secret body` stands for
crypto.createHmac('sha256', secret).update(JSON.stringify(body)).digest('hex'),
with JSON serialization and HMAC-SHA256 composed into one injected function.
Gates in source order: idempotency-key header (400), signature (401),
required fields (400); then the success path loads the tickets inside one
transaction (404 if any missing, 409 if any already carries a transaction
id, 400 on amount mismatch), confirms them, increments the first ticket's
event tier counters, records a Payment, and commits; the failed path marks
the tickets payment-failed; any throw aborts the transaction, leaving the
state unchanged. -/
def handlePaymentWebhook (hmac : String → WebhookBody → String) (secret : String)
    (idemKey signature : Option String) (body : WebhookBody) (db : DB) (now : Nat) :
    Except AppError Ack × DB :=
  if truthyS idemKey = false then
    (.error ⟨"Idempotency key required", 400, some "MISSING_IDEMPOTENCY_KEY"⟩, db)
  else
    match signature with
    | none => (.error ⟨"Invalid webhook signature", 401, some "INVALID_SIGNATURE"⟩, db)
    | some s =>
      if s = "" ∨ s ≠ hmac secret body then
        (.error ⟨"Invalid webhook signature", 401, some "INVALID_SIGNATURE"⟩, db)
      else if (truthyS body.transactionId && truthyS body.status &&
          !body.ticketIds.isEmpty && truthyN body.amount &&
          truthyS body.currency && truthyS body.paymentMethod) = false then
        (.error ⟨"Missing required fields in webhook payload", 400,
          some "MISSING_REQUIRED_FIELDS"⟩, db)
      else
        let txn := body.transactionId.getD ""
        if body.status = some "success" then
          let tickets := db.tickets.filter fun t => body.ticketIds.contains t.id
          if tickets.length ≠ body.ticketIds.length then
            (.error ⟨"Some tickets not found", 404, some "TICKETS_NOT_FOUND"⟩, db)
          else if tickets.any (fun t => truthyS t.transactionId) then
            (.error ⟨"Some tickets already processed", 409, some "DUPLICATE_TRANSACTION"⟩, db)
          else
            let expectedAmount := tickets.foldl (fun sum t => sum + t.price) 0
            if body.amount ≠ some expectedAmount then
              (.error ⟨"Payment amount mismatch", 400, some "AMOUNT_MISMATCH"⟩, db)
            else
              match tickets with
              | [] => (.error ⟨"TypeError", 500, none⟩, db)
              | t0 :: _ =>
                let confirmed : DB := { db with
                  tickets := db.tickets.map (confirmTicket body.ticketIds txn body.paymentMethod now) }
                let tiers := tickets.map (·.tier)
                let counted : DB := { confirmed with
                  events := confirmed.events.map fun ev =>
                    if ev.id == t0.event then incSoldForTiers ev tiers else ev }
                let record : Payment :=
                  { transactionId := txn, amount := body.amount.getD 0,
                    currency := body.currency.getD "", paymentMethod := body.paymentMethod.getD "",
                    tickets := body.ticketIds, customerEmail := body.customerEmail,
                    customerPhone := body.customerPhone, status := "completed" }
                (.ok ⟨txn, body.ticketIds.length⟩,
                 { counted with payments := counted.payments ++ [record] })
        else if body.status = some "failed" then
          (.ok ⟨txn, body.ticketIds.length⟩,
           { db with tickets := db.tickets.map (failTicket body.ticketIds txn now) })
        else
          (.ok ⟨txn, body.ticketIds.length⟩, db)

/-- The price map of createSingleTicket:
{ VIP: 500, 'Early Bird': 300, General: 200 }[tier]; other tiers are
rejected earlier by the Joi schema. -/
def tierPrice (tier : String) : Option Nat :=
  if tier = "VIP" then some 500
  else if tier = "Early Bird" then some 300
  else if tier = "General" then some 200
  else none

/-- The scan-token construction used at purchase and transfer:
ESWATICKET:eventId:ownerId:Date.now(). -/
def newQrData (eventId ownerId now : Nat) : String :=
  "ESWATICKET:" ++ toString eventId ++ ":" ++ toString ownerId ++ ":" ++ toString now

/-- createSingleTicket(eventId, userId, tier): builds the document saved at
purchase, with an initial self-referential transfer-history entry.
qrEnc models QRCode.toDataURL (the PNG data-URL of the token); the fresh
Mongo _id is supplied as newId. -/
def createSingleTicket (qrEnc : String → String) (eventId userId : Nat) (tier : String)
    (newId now : Nat) : Ticket :=
  { id := newId, event := eventId, owner := userId,
    qrData := newQrData eventId userId now,
    qrCode := qrEnc (newQrData eventId userId now),
    price := (tierPrice tier).getD 0, tier := tier,
    transferHistory := [⟨userId, userId, now⟩] }

/-- POST /purchase (quantity 1 path): Joi tier check, event lookup,
createSingleTicket, save. The handler performs no tier-capacity check of
any kind before saving the ticket; quantities above 1 are forwarded to
the batch route, which creates each ticket with the same helper and is
equally capacity-blind. -/
def purchaseRoute (qrEnc : String → String) (db : DB) (userId eventId : Nat)
    (tier : String) (newId now : Nat) : Except AppError Ticket × DB :=
  if (tierPrice tier).isNone then
    (.error ⟨"Validation error", 400, none⟩, db)
  else
    match db.events.find? (fun ev => ev.id == eventId) with
    | none => (.error ⟨"Event not found", 404, none⟩, db)
    | some ev =>
      let ticket := createSingleTicket qrEnc ev.id userId tier newId now
      (.ok ticket, { db with tickets := db.tickets ++ [ticket] })

/-- Mongoose document save for a document loaded from the store: fields the
schema marks immutable keep their stored value; qrData is the only such
field (models/Ticket.js line 16-20), so an assignment to it between load
and save is silently dropped. -/
def persistTicket (stored updated : Ticket) : Ticket :=
  { updated with qrData := stored.qrData }

/-- The transfer success response: { success, message, newQRCode }. -/
structure TransferResponse where
  message : String
  newQRCode : String
deriving Repr, DecidableEq

/-- POST /transfer/:ticketId: email requirement, findById, ownership check
(validateTicketOwnership: 404 when missing, 403 when not owner — it has no
used/refunded check), recipient lookup, regeneration of qrData/qrCode,
push of a transfer-history entry, owner reassignment, save. The handler
never assigns status, and the qrData assignment is dropped at save by the
schema's immutable flag (persistTicket). -/
def transferRoute (qrEnc : String → String) (db : DB) (ticketId userId : Nat)
    (email : String) (now : Nat) : Except AppError TransferResponse × DB :=
  if email = "" then (.error ⟨"Recipient email is required", 400, none⟩, db)
  else
    match db.tickets.find? (fun t => t.id == ticketId) with
    | none => (.error ⟨"Ticket not found", 404, none⟩, db)
    | some ticket =>
      if ticket.owner ≠ userId then
        (.error ⟨"You do not own this ticket", 403, none⟩, db)
      else
        match db.users.find? (fun u => u.email == email) with
        | none => (.error ⟨"Recipient not found", 404, none⟩, db)
        | some recipient =>
          let qrData := newQrData ticket.event recipient.id now
          let qrCode := qrEnc qrData
          let updated : Ticket := { ticket with
            transferHistory := ticket.transferHistory ++ [⟨userId, recipient.id, now⟩],
            owner := recipient.id,
            qrData := qrData,
            qrCode := qrCode }
          (.ok ⟨"Ticket transferred to " ++ email, qrCode⟩,
           updateTicket db (persistTicket ticket updated))

/-- True when the pattern list is a prefix of the character list. -/
def listHasPrefix : List Char → List Char → Bool
  | _, [] => true
  | [], _ :: _ => false
  | c :: cs, p :: ps => c == p && listHasPrefix cs ps

/-- JS String.prototype.split on a non-empty separator (head p, tail ps),
over character lists: cut at every non-overlapping occurrence. Structural
recursion on a character-count fuel so the definition reduces by
computation; the fuel is always at least the list length at the call site,
which makes the fuel-exhausted arm unreachable. -/
def splitFuel (p : Char) (ps : List Char) : Nat → List Char → List (List Char)
  | _, [] => [[]]
  | 0, s => [s]
  | fuel + 1, c :: cs =>
    if listHasPrefix (c :: cs) (p :: ps) then
      [] :: splitFuel p ps fuel (cs.drop ps.length)
    else
      match splitFuel p ps fuel cs with
      | [] => [[c]]
      | h :: t => (c :: h) :: t

/-- JS String.prototype.split for a non-empty separator (the two separators
in the source, ESWATICKET and ESWATICKET:, are literals). -/
def jsSplit (s pat : String) : List String :=
  match pat.toList with
  | [] => [s]
  | p :: ps => (splitFuel p ps s.toList.length s.toList).map List.asString

/-- True when pat occurs as a substring of s (JS String.prototype.includes),
for a non-empty pat. -/
def containsStr (s pat : String) : Bool :=
  (jsSplit s pat).length > 1

/-- The QR payload extraction of POST /validate. When the input contains
ESWATICKET, JS takes split('ESWATICKET:')[1] and, when that part is truthy,
prefixes it back with ESWATICKET: (discarding anything before the first and
after the second occurrence), falling back to the whole input otherwise.
The regex fallback /ESWATICKET:[^"]+/ sits in the branch where the input
does not contain ESWATICKET, so it can never match and that branch always
rejects with 400. -/
def extractQrPayload (input : String) : Option String :=
  if containsStr input "ESWATICKET" then
    match (jsSplit input "ESWATICKET:").get? 1 with
    | some part => if part = "" then some input else some ("ESWATICKET:" ++ part)
    | none => some input
  else none

/-- The lookup predicate of POST /validate:
Ticket.findOne({ $or: [{ qrData: payload }, { qrCode: { $regex: payload } }] }).
qrCodeContains c p models the Mongo regex test of pattern p against the
stored data-URL c. -/
def ticketMatchesQr (qrCodeContains : String → String → Bool) (t : Ticket)
    (payload : String) : Bool :=
  t.qrData == payload || qrCodeContains t.qrCode payload

/-- The validation success response: event name/date/location, attendee
email and the validation timestamp. -/
structure ValidateResponse where
  eventId : Nat
  eventName : String
  eventDate : Nat
  eventLocation : String
  attendeeEmail : String
  validatedAt : Nat
deriving Repr, DecidableEq

/-- POST /validate: extract the QR payload (400 on failure), find the
ticket by qrData or qrCode (404 when absent), reject already-used tickets
with 400 'Ticket already used', otherwise set isUsed, push one
validation-history entry (timestamp, validator, location defaulted to
'Unknown') and save. The stored status field is never assigned. The
populated event and owner are read only after the save commits, so a
dangling reference surfaces as a 500 with the mutation already persisted. -/
def validateRoute (qrCodeContains : String → String → Bool) (db : DB)
    (validatorId : Nat) (qrDataInput : String) (location : Option String) (now : Nat) :
    Except AppError ValidateResponse × DB :=
  match extractQrPayload qrDataInput with
  | none => (.error ⟨"Invalid QR code format", 400, none⟩, db)
  | some payload =>
    match db.tickets.find? (fun t => ticketMatchesQr qrCodeContains t payload) with
    | none => (.error ⟨"Ticket not found", 404, none⟩, db)
    | some ticket =>
      if ticket.isUsed then
        (.error ⟨"Ticket already used", 400, none⟩, db)
      else
        let updated : Ticket := { ticket with
          isUsed := true,
          validationHistory := ticket.validationHistory ++
            [⟨now, validatorId, location.getD "Unknown"⟩] }
        let db' := updateTicket db updated
        match db.events.find? (fun ev => ev.id == ticket.event),
              db.users.find? (fun u => u.id == ticket.owner) with
        | some ev, some ow =>
          (.ok ⟨ev.id, ev.name, ev.date, ev.location, ow.email, now⟩, db')
        | _, _ => (.error ⟨"TypeError", 500, none⟩, db')

/-- Decidable equality of handler results, so that concrete runs can be
checked by decide. -/
instance {ε α : Type} [DecidableEq ε] [DecidableEq α] : DecidableEq (Except ε α) :=
  fun x y =>
    match x, y with
    | .error a, .error b =>
      if h : a = b then .isTrue (by rw [h]) else
        .isFalse (fun hc => h (Except.error.inj hc))
    | .error a, .ok b => .isFalse (fun hc => Except.noConfusion hc)
    | .ok a, .error b => .isFalse (fun hc => Except.noConfusion hc)
    | .ok a, .ok b =>
      if h : a = b then .isTrue (by rw [h]) else
        .isFalse (fun hc => h (Except.ok.inj hc))

/-
Concrete instantiations of the injected collaborators (QR encoding, HMAC,
Mongo regex test) and concrete store states used to evaluate the handlers.
-/

/-- A concrete stand-in for QRCode.toDataURL. -/
def qrEncX : String → String := fun s => "png:" ++ s

/-- A concrete stand-in for the HMAC-SHA256 hex digest of the serialized body. -/
def hmacX : String → WebhookBody → String := fun secret _body => "sig-" ++ secret

/-- A concrete stand-in for the Mongo regex test against the stored data-URL:
a scan-token pattern never occurs inside a base64 PNG data-URL. -/
def qrRegexX : String → String → Bool := fun _code _pat => false

def userA : User := { id := 1, email := "a@x" }

def userB : User := { id := 2, email := "b@x" }

/-- A freshly purchased General ticket for event 7, owned by user 1. -/
def ticketX : Ticket :=
  { id := 1, event := 7, owner := 1,
    qrData := "ESWATICKET:7:1:100", qrCode := "png:ESWATICKET:7:1:100",
    price := 200, transferHistory := [{ tfrom := 1, tto := 1, date := 100 }] }

/-- Event 7 with a single General tier of capacity 0 (nothing available). -/
def eventX : Event :=
  { id := 7, name := "Fest", date := 77, location := "Mbabane",
    ticketTypes := [{ name := "General", price := 200, capacity := 0 }],
    organizer := 3 }

/-- Event 7 with its General tier sold out (sold = capacity = 1). -/
def fullEventX : Event :=
  { eventX with ticketTypes := [{ name := "General", price := 200, capacity := 1, sold := 1 }] }

def dbX : DB := { tickets := [ticketX], events := [eventX], users := [userA, userB] }

/-- ticketX after a successful validation scan. -/
def usedTicketX : Ticket :=
  { ticketX with
    isUsed := true,
    validationHistory := [{ timestamp := 20, validatedBy := 9, location := "Gate A" }] }

def dbUsed : DB := { tickets := [usedTicketX], events := [eventX], users := [userA, userB] }

/-- ticketX after a completed refund under idempotency key key-1. -/
def refundedTicketX : Ticket :=
  { ticketX with
    status := "REFUNDED",
    refundHistory := [{ idempotencyKey := "key-1", processedAt := 10, processedBy := 1,
                        amount := 200, reason := "damaged", status := "COMPLETED" }] }

def dbRefunded : DB := { tickets := [refundedTicketX], events := [eventX], users := [userA, userB] }

/-- ticketX after webhook confirmation of transaction txn_123. -/
def confirmedTicketX : Ticket :=
  { ticketX with
    paymentStatus := some "confirmed", transactionId := some "txn_123",
    paymentMethod := some "momo", updatedAt := 400 }

def dbDup : DB := { tickets := [confirmedTicketX], events := [eventX], users := [userA, userB] }

/-- A valid success webhook payload covering ticketX, amount equal to its price. -/
def bodyX : WebhookBody :=
  { transactionId := some "txn_123", status := some "success", ticketIds := [1],
    amount := some 200, currency := some "SZL", paymentMethod := some "momo" }

/-- A second General ticket for event 7 (batch partner of ticketX). -/
def ticketY : Ticket :=
  { id := 2, event := 7, owner := 2,
    qrData := "ESWATICKET:7:2:110", qrCode := "png:ESWATICKET:7:2:110",
    price := 200, transferHistory := [{ tfrom := 2, tto := 2, date := 110 }] }

def dbPair : DB := { tickets := [ticketX, ticketY], events := [eventX], users := [userA, userB] }

/-- A valid success webhook settling both General tickets in one batch. -/
def bodyPair : WebhookBody :=
  { transactionId := some "txn_9", status := some "success", ticketIds := [1, 2],
    amount := some 400, currency := some "SZL", paymentMethod := some "momo" }

/-
Theorems. Each claim of the specification is settled by one theorem below,
with a closed witness instance where the theorem carries hypotheses.
-/

/-- C6 counterexample: the first refund responds with the completed payload
(amount, currency, refundId, processedAt) while the replay under the same
(ticket, idempotencyKey) responds with the deduplicated payload
(refundStatus, originalRequestAt); the two outcome payloads are not equal,
so repeated refunds are not byte-identical to the first response. -/
theorem refund_second_response_differs_from_first :
    (processRefund { tickets := [ticketX] } 1 1 "damaged" "key-1" 10).1 =
      .ok (.completed 200 "SZL" 0 10) ∧
    (processRefund (processRefund { tickets := [ticketX] } 1 1 "damaged" "key-1" 10).2
        1 1 "damaged" "key-1" 20).1 =
      .ok (.deduplicated "COMPLETED" 10) ∧
    (processRefund (processRefund { tickets := [ticketX] } 1 1 "damaged" "key-1" 10).2
        1 1 "damaged" "key-1" 20).1 ≠
      (processRefund { tickets := [ticketX] } 1 1 "damaged" "key-1" 10).1 := by
  decide

/-- C6 (amended): once a refund-history entry exists for (ticket,
idempotencyKey), every later refund request with that pair returns the same
stored deduplicated payload - so the second and all subsequent responses are
identical to each other - and leaves the store unchanged, appending no second
refund-history entry; the replayed payload is however not the first
response's completed payload. -/
theorem refund_dedup_stable_and_no_second_entry
    (db : DB) (tid u2 u3 : Nat) (r2 r3 key : String) (n2 n3 : Nat)
    (t : Ticket) (e : RefundEntry)
    (hfind : db.tickets.find? (fun t =>
      t.id == tid && t.refundHistory.any fun r => r.idempotencyKey == key) = some t)
    (hentry : t.refundHistory.find? (fun r => r.idempotencyKey == key) = some e) :
    processRefund db tid u2 r2 key n2 = (.ok (.deduplicated e.status e.processedAt), db) ∧
    processRefund db tid u2 r2 key n2 = processRefund db tid u3 r3 key n3 := by
  unfold processRefund
  simp [hfind, hentry]

/-- C6 witness: instance of the dedup stability theorem on the refunded
ticket fixture: any two later refund calls with key-1 return the stored
COMPLETED outcome from time 10 and do not change the store. -/
theorem refund_dedup_stable_and_no_second_entry_instance :
    processRefund dbRefunded 1 5 "again" "key-1" 20 =
      (.ok (.deduplicated "COMPLETED" 10), dbRefunded) ∧
    processRefund dbRefunded 1 5 "again" "key-1" 20 =
      processRefund dbRefunded 1 6 "more" "key-1" 30 :=
  refund_dedup_stable_and_no_second_entry dbRefunded 1 5 6 "again" "more" "key-1" 20 30
    refundedTicketX
    { idempotencyKey := "key-1", processedAt := 10, processedBy := 1,
      amount := 200, reason := "damaged", status := "COMPLETED" }
    (by decide) (by decide)

/-- C10: the idempotency lookup of processRefund runs before the
ticket-existence and ownership checks: whenever a stored refund-history
entry matches (ticketId, idempotencyKey), the controller replies 200 with
the stored deduplicated outcome and changes nothing, even for a requester
who does not own the ticket. -/
theorem refund_dedup_skips_ownership_check
    (db : DB) (tid uid : Nat) (reason key : String) (now : Nat)
    (t : Ticket) (e : RefundEntry)
    (hfind : db.tickets.find? (fun t =>
      t.id == tid && t.refundHistory.any fun r => r.idempotencyKey == key) = some t)
    (hentry : t.refundHistory.find? (fun r => r.idempotencyKey == key) = some e)
    (hnotowner : t.owner ≠ uid) :
    processRefund db tid uid reason key now = (.ok (.deduplicated e.status e.processedAt), db) := by
  unfold processRefund
  simp only [hfind, hentry]

/-- C10 witness: user 99, who does not own the refunded ticket, replays
key-1 and receives the stored outcome with the store unchanged. -/
theorem refund_dedup_skips_ownership_check_instance :
    processRefund dbRefunded 1 99 "gimme" "key-1" 40 =
      (.ok (.deduplicated "COMPLETED" 10), dbRefunded) :=
  refund_dedup_skips_ownership_check dbRefunded 1 99 "gimme" "key-1" 40
    refundedTicketX
    { idempotencyKey := "key-1", processedAt := 10, processedBy := 1,
      amount := 200, reason := "damaged", status := "COMPLETED" }
    (by decide) (by decide) (by decide)

/-- C1 counterexample: a ticket whose lifecycle reached REFUNDED can still
be transferred - the model method checks only isUsed, which a refunded
ticket does not set - so the transfer succeeds, reassigns the owner and
even flips the status from REFUNDED to TRANSFERRED, instead of failing
with a Conflict and leaving the ticket unchanged. -/
theorem transfer_succeeds_on_refunded_ticket :
    refundedTicketX.status = "REFUNDED" ∧
    transferTicket refundedTicketX 2 1 50 =
      .ok { refundedTicketX with
            transferHistory := refundedTicketX.transferHistory ++
              [{ tfrom := 1, tto := 2, date := 50 }],
            owner := 2,
            status := "TRANSFERRED" } := by
  decide

/-- C1 (amended): once a ticket is USED or REFUNDED, a refund bearing an
idempotency key with no stored entry fails and leaves the store unchanged;
once USED, the model-level transferTicket by the owner fails and a
validation scan that finds the ticket fails with the 400 already-used
error, both leaving the store unchanged. None of these failures is a 409
Conflict (they surface as 400/403/500), the route-level transfer handler
checks only ownership - so USED and REFUNDED tickets can still be
transferred through it - and a REFUNDED (unused) ticket can still be
validated, because every guard reads only isUsed. -/
theorem terminal_ticket_guards
    (db : DB) (t : Ticket) (tid uid rid vid : Nat) (key reason qinput payload : String)
    (loc : Option String) (now : Nat) (qc : String → String → Bool)
    (hdedup : db.tickets.find? (fun x =>
      x.id == tid && x.refundHistory.any fun r => r.idempotencyKey == key) = none)
    (hfind : db.tickets.find? (fun x => x.id == tid) = some t)
    (hterm : t.isUsed = true ∨ t.status = "REFUNDED")
    (hx : extractQrPayload qinput = some payload)
    (hvfind : db.tickets.find? (fun x => ticketMatchesQr qc x payload) = some t) :
    (∃ e : AppError, processRefund db tid uid reason key now = (.error e, db)) ∧
    (t.owner = uid → t.isUsed = true →
      transferTicket t rid uid now = .error "Cannot transfer used ticket") ∧
    (t.isUsed = true →
      validateRoute qc db vid qinput loc now =
        (.error { message := "Ticket already used", statusCode := 400, code := none }, db)) := by
  refine ⟨?_, ?_, ?_⟩
  · unfold processRefund
    simp only [hdedup, hfind]
    by_cases howner : t.owner = uid
    · simp only [howner, ne_eq, not_true_eq_false, if_false]
      unfold Ticket.processRefund
      cases hu : t.isUsed with
      | true => exact ⟨{ message := "Cannot refund used ticket", statusCode := 500, code := none },
          by simp [hu]⟩
      | false =>
        have hr : t.status = "REFUNDED" := by
          rcases hterm with h | h
          · rw [hu] at h; exact absurd h (by decide)
          · exact h
        exact ⟨{ message := "Ticket already refunded", statusCode := 500, code := none },
          by simp [hu, hr]⟩
    · exact ⟨{ message := "You do not own this ticket", statusCode := 403, code := none },
        by simp [howner]⟩
  · intro howner hu
    unfold transferTicket
    simp [howner, hu]
  · intro hu
    unfold validateRoute
    simp only [hx, hvfind, hu]
    simp

/-- C1 witness: the guards on the used-ticket fixture: a fresh-key refund,
an owner transfer through the model method and a second validation scan
all fail and leave the store unchanged. -/
theorem terminal_ticket_guards_instance :
    (∃ e : AppError, processRefund dbUsed 1 1 "late" "key-2" 30 = (.error e, dbUsed)) ∧
    (usedTicketX.owner = 1 → usedTicketX.isUsed = true →
      transferTicket usedTicketX 2 1 30 = .error "Cannot transfer used ticket") ∧
    (usedTicketX.isUsed = true →
      validateRoute qrRegexX dbUsed 9 "ESWATICKET:7:1:100" none 30 =
        (.error { message := "Ticket already used", statusCode := 400, code := none }, dbUsed)) :=
  terminal_ticket_guards dbUsed usedTicketX 1 1 2 9 "key-2" "late" "ESWATICKET:7:1:100"
    "ESWATICKET:7:1:100" none 30 qrRegexX
    (by decide) (by decide) (Or.inl (by decide)) (by decide) (by decide)

/-- C3: for a webhook delivery that carries an idempotency key, if the
signature header does not equal the HMAC of the payload under the shared
secret, the handler rejects with the 401 invalid-signature error and the
store is returned untouched - no ticket field changes - whatever the
payload contains. -/
theorem invalid_signature_rejected_401_state_unchanged
    (hmac : String → WebhookBody → String) (secret : String)
    (idemKey signature : Option String) (body : WebhookBody) (db : DB) (now : Nat)
    (hkey : truthyS idemKey = true)
    (hsig : signature ≠ some (hmac secret body)) :
    handlePaymentWebhook hmac secret idemKey signature body db now =
      (.error { message := "Invalid webhook signature", statusCode := 401,
                code := some "INVALID_SIGNATURE" }, db) := by
  unfold handlePaymentWebhook
  rw [hkey]
  cases signature with
  | none => rfl
  | some s =>
    have hne : s ≠ hmac secret body := fun h => hsig (by rw [h])
    simp [hne]

/-- C3 witness: a delivery of the valid success payload with a wrong
signature is rejected 401 and the store with the fresh ticket is unchanged. -/
theorem invalid_signature_rejected_401_state_unchanged_instance :
    handlePaymentWebhook hmacX "sec" (some "key") (some "bad") bodyX dbX 400 =
      (.error { message := "Invalid webhook signature", statusCode := 401,
                code := some "INVALID_SIGNATURE" }, dbX) :=
  invalid_signature_rejected_401_state_unchanged hmacX "sec" (some "key") (some "bad")
    bodyX dbX 400 (by decide) (by decide)

/-- C4 counterexample: the first delivery of the valid success webhook is
acknowledged 200, but redelivering the identical payload with the same
idempotency key against the resulting state returns the 409
duplicate-transaction error - not the original acknowledgement - because
the controller keeps no idempotency ledger and the duplicate gate fires. -/
theorem webhook_redelivery_returns_conflict_not_ack :
    (handlePaymentWebhook hmacX "sec" (some "key") (some "sig-sec") bodyX dbX 400).1 =
      .ok { transactionId := "txn_123", ticketCount := 1 } ∧
    handlePaymentWebhook hmacX "sec" (some "key") (some "sig-sec") bodyX
        (handlePaymentWebhook hmacX "sec" (some "key") (some "sig-sec") bodyX dbX 400).2 500 =
      (.error { message := "Some tickets already processed", statusCode := 409,
                code := some "DUPLICATE_TRANSACTION" },
       (handlePaymentWebhook hmacX "sec" (some "key") (some "sig-sec") bodyX dbX 400).2) ∧
    (handlePaymentWebhook hmacX "sec" (some "key") (some "sig-sec") bodyX
        (handlePaymentWebhook hmacX "sec" (some "key") (some "sig-sec") bodyX dbX 400).2 500).1 ≠
      .ok { transactionId := "txn_123", ticketCount := 1 } := by
  decide

/-- C4 (amended): redelivering the identical success payload after its
tickets have been processed - every covered ticket already carries the
transaction id - does not apply the confirmation, sold-count increment or
payment record a second time: the duplicate-transaction gate aborts the
whole delivery with a 409 error and the store is unchanged; the sender
however does not receive the original 200 acknowledgement back. -/
theorem webhook_redelivery_no_double_processing
    (hmac : String → WebhookBody → String) (secret : String)
    (idemKey : Option String) (body : WebhookBody) (db : DB) (now : Nat)
    (hkey : truthyS idemKey = true)
    (hne : hmac secret body ≠ "")
    (hfields : (truthyS body.transactionId && truthyS body.status &&
      !body.ticketIds.isEmpty && truthyN body.amount &&
      truthyS body.currency && truthyS body.paymentMethod) = true)
    (hsucc : body.status = some "success")
    (hlen : (db.tickets.filter fun t => body.ticketIds.contains t.id).length =
      body.ticketIds.length)
    (hall : ∀ t ∈ db.tickets.filter (fun t => body.ticketIds.contains t.id),
      truthyS t.transactionId = true) :
    handlePaymentWebhook hmac secret idemKey (some (hmac secret body)) body db now =
      (.error { message := "Some tickets already processed", statusCode := 409,
                code := some "DUPLICATE_TRANSACTION" }, db) := by
  have hids : (!body.ticketIds.isEmpty) = true := by
    simp only [Bool.and_eq_true] at hfields
    exact hfields.1.1.1.2
  have hanyb : (db.tickets.filter fun t => body.ticketIds.contains t.id).any
      (fun t => truthyS t.transactionId) = true := by
    have hnonempty : body.ticketIds.isEmpty = false := by simpa using hids
    rcases hfilter : db.tickets.filter fun t => body.ticketIds.contains t.id with _ | ⟨t0, rest⟩
    · exfalso
      rw [hfilter] at hlen
      cases hid2 : body.ticketIds with
      | nil => rw [hid2] at hnonempty; simp at hnonempty
      | cons i is => rw [hid2] at hlen; simp at hlen
    · have ht0 := hall t0 (by rw [hfilter]; exact List.mem_cons_self t0 rest)
      rw [hfilter]
      simp [ht0]
  unfold handlePaymentWebhook
  rw [hkey]
  rw [if_neg (by decide : ¬(true = false))]
  dsimp only
  rw [if_neg (by simp [hne] :
    ¬(hmac secret body = "" ∨ hmac secret body ≠ hmac secret body))]
  rw [hfields]
  rw [if_neg (by decide : ¬(true = false))]
  rw [if_pos hsucc]
  rw [if_neg (show ¬((db.tickets.filter fun t => body.ticketIds.contains t.id).length ≠
    body.ticketIds.length) from by rw [hlen]; exact fun h => h rfl)]
  rw [if_pos hanyb]

/-- C4 witness: redelivery of the valid success payload against the store
whose ticket already carries txn_123 yields the 409 duplicate error and no
change. -/
theorem webhook_redelivery_no_double_processing_instance :
    handlePaymentWebhook hmacX "sec" (some "key") (some (hmacX "sec" bodyX)) bodyX dbDup 500 =
      (.error { message := "Some tickets already processed", statusCode := 409,
                code := some "DUPLICATE_TRANSACTION" }, dbDup) :=
  webhook_redelivery_no_double_processing hmacX "sec" (some "key") bodyX dbDup 500
    (by decide) (by decide) (by decide) (by decide) (by decide) (by decide)

/-- C5: on a success webhook that passes the key, signature and field
gates and whose referenced tickets are all found, if any of those tickets
already carries a transaction id the handler rejects with the 409
duplicate-transaction error and the abort leaves every ticket, event and
payment record exactly as before. -/
theorem webhook_duplicate_transaction_409_aborts
    (hmac : String → WebhookBody → String) (secret : String)
    (idemKey : Option String) (body : WebhookBody) (db : DB) (now : Nat)
    (hkey : truthyS idemKey = true)
    (hne : hmac secret body ≠ "")
    (hfields : (truthyS body.transactionId && truthyS body.status &&
      !body.ticketIds.isEmpty && truthyN body.amount &&
      truthyS body.currency && truthyS body.paymentMethod) = true)
    (hsucc : body.status = some "success")
    (hlen : (db.tickets.filter fun t => body.ticketIds.contains t.id).length =
      body.ticketIds.length)
    (hany : (db.tickets.filter fun t => body.ticketIds.contains t.id).any
      (fun t => truthyS t.transactionId) = true) :
    handlePaymentWebhook hmac secret idemKey (some (hmac secret body)) body db now =
      (.error { message := "Some tickets already processed", statusCode := 409,
                code := some "DUPLICATE_TRANSACTION" }, db) := by
  unfold handlePaymentWebhook
  rw [hkey]
  rw [if_neg (by decide : ¬(true = false))]
  dsimp only
  rw [if_neg (by simp [hne] :
    ¬(hmac secret body = "" ∨ hmac secret body ≠ hmac secret body))]
  rw [hfields]
  rw [if_neg (by decide : ¬(true = false))]
  rw [if_pos hsucc]
  rw [if_neg (show ¬((db.tickets.filter fun t => body.ticketIds.contains t.id).length ≠
    body.ticketIds.length) from by rw [hlen]; exact fun h => h rfl)]
  rw [if_pos hany]

/-- C5 witness: a batch of one already-processed ticket plus one fresh
ticket is rejected 409 wholesale, the fresh ticket staying unconfirmed. -/
theorem webhook_duplicate_transaction_409_aborts_instance :
    handlePaymentWebhook hmacX "sec" (some "key") (some (hmacX "sec" bodyPair)) bodyPair
      { tickets := [confirmedTicketX, ticketY], events := [eventX], users := [userA, userB] } 600 =
      (.error { message := "Some tickets already processed", statusCode := 409,
                code := some "DUPLICATE_TRANSACTION" },
       { tickets := [confirmedTicketX, ticketY], events := [eventX], users := [userA, userB] }) :=
  webhook_duplicate_transaction_409_aborts hmacX "sec" (some "key") bodyPair
    { tickets := [confirmedTicketX, ticketY], events := [eventX], users := [userA, userB] } 600
    (by decide) (by decide) (by decide) (by decide) (by decide) (by decide)

/-- C9: when the success path of handlePaymentWebhook runs to completion
on a found, unprocessed, amount-matching batch, the delivery is
acknowledged and the events collection is rewritten so that only the event
referenced by the first loaded ticket changes, and within it every tier
whose name appears among the batch tickets' tiers has its sold counter
incremented by exactly 1 - once per delivery, not once per ticket of that
tier. -/
theorem webhook_success_increments_each_tier_once
    (hmac : String → WebhookBody → String) (secret : String)
    (idemKey : Option String) (body : WebhookBody) (db : DB) (now : Nat)
    (t0 : Ticket) (rest : List Ticket)
    (hkey : truthyS idemKey = true)
    (hne : hmac secret body ≠ "")
    (hfields : (truthyS body.transactionId && truthyS body.status &&
      !body.ticketIds.isEmpty && truthyN body.amount &&
      truthyS body.currency && truthyS body.paymentMethod) = true)
    (hsucc : body.status = some "success")
    (hts : db.tickets.filter (fun t => body.ticketIds.contains t.id) = t0 :: rest)
    (hlen : (t0 :: rest).length = body.ticketIds.length)
    (hnodup : ((t0 :: rest).any fun t => truthyS t.transactionId) = false)
    (hamt : body.amount = some ((t0 :: rest).foldl (fun sum t => sum + t.price) 0)) :
    (handlePaymentWebhook hmac secret idemKey (some (hmac secret body)) body db now).1 =
      .ok { transactionId := body.transactionId.getD "",
            ticketCount := body.ticketIds.length } ∧
    (handlePaymentWebhook hmac secret idemKey (some (hmac secret body)) body db now).2.events =
      db.events.map (fun ev =>
        if ev.id == t0.event then
          { ev with ticketTypes := ev.ticketTypes.map fun tt =>
              if ((t0 :: rest).map Ticket.tier).contains tt.name then
                { tt with sold := tt.sold + 1 }
              else tt }
        else ev) := by
  have hred : handlePaymentWebhook hmac secret idemKey (some (hmac secret body)) body db now =
      (.ok { transactionId := body.transactionId.getD "",
             ticketCount := body.ticketIds.length },
       { tickets := db.tickets.map (confirmTicket body.ticketIds
           (body.transactionId.getD "") body.paymentMethod now),
         events := db.events.map (fun ev =>
           if ev.id == t0.event then incSoldForTiers ev ((t0 :: rest).map (fun t => t.tier))
           else ev),
         users := db.users,
         payments := db.payments ++
           [{ transactionId := body.transactionId.getD "", amount := body.amount.getD 0,
              currency := body.currency.getD "", paymentMethod := body.paymentMethod.getD "",
              tickets := body.ticketIds, customerEmail := body.customerEmail,
              customerPhone := body.customerPhone, status := "completed" }] }) := by
    unfold handlePaymentWebhook
    rw [hkey]
    rw [if_neg (by decide : ¬(true = false))]
    dsimp only
    rw [if_neg (by simp [hne] :
      ¬(hmac secret body = "" ∨ hmac secret body ≠ hmac secret body))]
    rw [hfields]
    rw [if_neg (by decide : ¬(true = false))]
    rw [if_pos hsucc]
    rw [hts]
    rw [if_neg (show ¬((t0 :: rest).length ≠ body.ticketIds.length) from
      by rw [hlen]; exact fun h => h rfl)]
    rw [hnodup]
    rw [if_neg (by decide : ¬(false = true))]
    rw [if_neg (show ¬(body.amount ≠
        some ((t0 :: rest).foldl (fun sum t => sum + t.price) 0)) from
      by rw [hamt]; exact fun h => h rfl)]
  rw [hred]
  exact ⟨rfl, rfl⟩

/-- C9 witness: a batch of two General-tier tickets settles with one
acknowledgement and the General counter of event 7 rises from 0 to 1 -
one increment for the whole delivery despite two General tickets. -/
theorem webhook_success_increments_each_tier_once_instance :
    (handlePaymentWebhook hmacX "sec" (some "key") (some (hmacX "sec" bodyPair))
        bodyPair dbPair 600).1 =
      .ok { transactionId := bodyPair.transactionId.getD "",
            ticketCount := bodyPair.ticketIds.length } ∧
    (handlePaymentWebhook hmacX "sec" (some "key") (some (hmacX "sec" bodyPair))
        bodyPair dbPair 600).2.events =
      dbPair.events.map (fun ev =>
        if ev.id == ticketX.event then
          { ev with ticketTypes := ev.ticketTypes.map fun tt =>
              if (([ticketX, ticketY] : List Ticket).map Ticket.tier).contains tt.name then
                { tt with sold := tt.sold + 1 }
              else tt }
        else ev) :=
  webhook_success_increments_each_tier_once hmacX "sec" (some "key") bodyPair dbPair 600
    ticketX [ticketY] (by decide) (by decide) (by decide) (by decide) (by decide)
    (by decide) (by decide) (by decide)

/-- C2: the purchase handler performs no capacity check: purchasing a
General ticket for event 7, whose General tier has capacity 0, succeeds
and appends the ticket to the store; and the sold-count increment the
webhook applies is not gated on capacity, pushing an already-sold-out tier
(sold = capacity = 1) beyond its capacity. -/
theorem purchase_ignores_capacity :
    eventX.ticketTypes = [{ name := "General", price := 200, capacity := 0, sold := 0 }] ∧
    (purchaseRoute qrEncX dbX 1 7 "General" 42 300).1 =
      .ok (createSingleTicket qrEncX 7 1 "General" 42 300) ∧
    (purchaseRoute qrEncX dbX 1 7 "General" 42 300).2.tickets =
      dbX.tickets ++ [createSingleTicket qrEncX 7 1 "General" 42 300] ∧
    ((incSoldForTiers fullEventX ["General"]).ticketTypes.all
      fun tt => tt.sold ≤ tt.capacity) = false := by
  decide

/-- C7: transferring ticketX to user 2 succeeds and advertises a fresh
token in the response, but the persisted ticket keeps the pre-transfer
qrData (the schema marks it immutable, so the assignment is dropped at
save), its stored status remains ACTIVE rather than TRANSFERRED, and the
old token still matches the persisted ticket through the validation
lookup - the previous owner can still present it. -/
theorem transfer_keeps_old_qr_and_active_status :
    (transferRoute qrEncX dbX 1 1 "b@x" 200).1 =
      .ok { message := "Ticket transferred to b@x",
            newQRCode := qrEncX (newQrData 7 2 200) } ∧
    ((transferRoute qrEncX dbX 1 1 "b@x" 200).2.tickets.map Ticket.owner) = [2] ∧
    ((transferRoute qrEncX dbX 1 1 "b@x" 200).2.tickets.map Ticket.qrData) =
      ["ESWATICKET:7:1:100"] ∧
    newQrData 7 2 200 ≠ "ESWATICKET:7:1:100" ∧
    ((transferRoute qrEncX dbX 1 1 "b@x" 200).2.tickets.map Ticket.status) = ["ACTIVE"] ∧
    ((transferRoute qrEncX dbX 1 1 "b@x" 200).2.tickets.all
      fun t => ticketMatchesQr qrRegexX t "ESWATICKET:7:1:100") = true := by
  decide

/-- C8 counterexample: validating the fresh ticket succeeds (isUsed
becomes true, one history entry appended) yet the persisted status field
still reads ACTIVE, not USED - the handler never assigns the stored
status enum. -/
theorem validate_leaves_stored_status_active :
    (validateRoute qrRegexX dbX 9 "ESWATICKET:7:1:100" none 50).1 =
      .ok { eventId := 7, eventName := "Fest", eventDate := 77,
            eventLocation := "Mbabane", attendeeEmail := "a@x", validatedAt := 50 } ∧
    ((validateRoute qrRegexX dbX 9 "ESWATICKET:7:1:100" none 50).2.tickets.map
      Ticket.isUsed) = [true] ∧
    ((validateRoute qrRegexX dbX 9 "ESWATICKET:7:1:100" none 50).2.tickets.map
      Ticket.status) = ["ACTIVE"] := by
  decide

/-- C8 (amended): a validation scan that finds a ticket succeeds exactly
when isUsed is false; on success it appends exactly one validation-history
entry carrying the timestamp, the validator identity and the (defaulted)
location, sets isUsed to true and leaves every other field - including the
stored status, which is never set to USED - unchanged; only the virtual
status of the alternative model variant, computed from isUsed, reports
USED. An already-used ticket is rejected with the 400 already-used error
and no state change. -/
theorem validate_effects
    (qc : String → String → Bool) (db : DB) (vid : Nat) (qinput payload : String)
    (loc : Option String) (now : Nat) (t : Ticket) (ev : Event) (ow : User)
    (hx : extractQrPayload qinput = some payload)
    (hfind : db.tickets.find? (fun x => ticketMatchesQr qc x payload) = some t)
    (hev : db.events.find? (fun e => e.id == t.event) = some ev)
    (how : db.users.find? (fun u => u.id == t.owner) = some ow) :
    (t.isUsed = true →
      validateRoute qc db vid qinput loc now =
        (.error { message := "Ticket already used", statusCode := 400, code := none }, db)) ∧
    (t.isUsed = false →
      ∃ t' : Ticket,
        validateRoute qc db vid qinput loc now =
          (.ok { eventId := ev.id, eventName := ev.name, eventDate := ev.date,
                 eventLocation := ev.location, attendeeEmail := ow.email,
                 validatedAt := now },
           updateTicket db t') ∧
        t'.isUsed = true ∧
        t'.validationHistory = t.validationHistory ++
          [{ timestamp := now, validatedBy := vid, location := loc.getD "Unknown" }] ∧
        t'.status = t.status ∧
        virtualStatus t' = "USED" ∧
        t'.owner = t.owner ∧ t'.qrData = t.qrData ∧
        t'.refundHistory = t.refundHistory ∧ t'.transferHistory = t.transferHistory) := by
  constructor
  · intro hu
    unfold validateRoute
    simp only [hx, hfind, hu]
    rfl
  · intro hu
    refine ⟨{ t with
      isUsed := true,
      validationHistory := t.validationHistory ++
        [{ timestamp := now, validatedBy := vid, location := loc.getD "Unknown" }] },
      ?_, rfl, rfl, rfl, rfl, rfl, rfl, rfl, rfl⟩
    unfold validateRoute
    simp only [hx, hfind, hu, hev, how]
    rfl

/-- C8 witness: the effects of validating the fresh ticket of the fixture
store, exercising the success branch of the validate-effects theorem. -/
theorem validate_effects_instance :
    (ticketX.isUsed = true →
      validateRoute qrRegexX dbX 9 "ESWATICKET:7:1:100" none 50 =
        (.error { message := "Ticket already used", statusCode := 400, code := none }, dbX)) ∧
    (ticketX.isUsed = false →
      ∃ t' : Ticket,
        validateRoute qrRegexX dbX 9 "ESWATICKET:7:1:100" none 50 =
          (.ok { eventId := eventX.id, eventName := eventX.name, eventDate := eventX.date,
                 eventLocation := eventX.location, attendeeEmail := userA.email,
                 validatedAt := 50 },
           updateTicket dbX t') ∧
        t'.isUsed = true ∧
        t'.validationHistory = ticketX.validationHistory ++
          [{ timestamp := 50, validatedBy := 9, location := "Unknown" }] ∧
        t'.status = ticketX.status ∧
        virtualStatus t' = "USED" ∧
        t'.owner = ticketX.owner ∧ t'.qrData = ticketX.qrData ∧
        t'.refundHistory = ticketX.refundHistory ∧
        t'.transferHistory = ticketX.transferHistory) :=
  validate_effects qrRegexX dbX 9 "ESWATICKET:7:1:100" "ESWATICKET:7:1:100" none 50
    ticketX eventX userA (by decide) (by decide) (by decide) (by decide)

end EswatiniEvents
